import Mathlib

/-!
Verification development for the AI-Notes-Generator backend.

We give a shallow embedding, in Lean, of the repository's own logic:
the response sanitizer, the quiz/mindmap/key-point schema validators and
repairers (`app/services/ai_service.py`), the PDF multi-method extraction
fallback (`app/services/pdf_service.py`), the notes route validation
(`app/api/notes.py`) and the audio transcription control flow
(`app/services/voice_service.py`).

External collaborators (the Ollama HTTP backend, `json.loads`, the PDF
parsing libraries, the speech recognizer) are modelled as explicit inputs:
each service function takes the outcome of the external call as an
argument, and the embedded function reproduces the repository's own
branching, repair and error-classification logic on top of it.

Python string operations (`strip`, `split`, `startswith`, `endswith`,
`lstrip`, slicing, substring `in`) are modelled over `List Char`.
`strip`/`split` use the ASCII whitespace characters; Python also strips a
few rare Unicode space code points, which no claim depends on.
-/

/-- ASCII whitespace, as recognised by Python `str.strip` / `str.split`. -/
def isPySpace (c : Char) : Bool :=
  c == ' ' || c == '\t' || c == '\n' || c == '\x0d' || c == '\x0b' || c == '\x0c'

/-- Python `s.strip()` on the right: drop trailing whitespace. -/
def stripRightList (l : List Char) : List Char :=
  (l.reverse.dropWhile isPySpace).reverse

/-- Python `s.strip()` over a character list. -/
def pyStripList (l : List Char) : List Char :=
  stripRightList (l.dropWhile isPySpace)

/-- Python `s.strip()`. -/
def pyStrip (s : String) : String :=
  ⟨pyStripList s.data⟩

/-- Python `s.startswith(pre)`. -/
def pyStartsWith (s pre : String) : Bool :=
  pre.data.isPrefixOf s.data

/-- Python `s.endswith(suf)`. -/
def pyEndsWith (s suf : String) : Bool :=
  suf.data.isSuffixOf s.data

/-- Python `s[a:-b]` (for `a, b ≥ 0`): drop `a` from the front, `b` from the back. -/
def pySliceDropBoth (s : String) (a b : Nat) : String :=
  ⟨(s.data.drop a).take (s.data.length - b - a)⟩

/-- Python `s[a:]`. -/
def pyDropLeft (s : String) (a : Nat) : String :=
  ⟨s.data.drop a⟩

/-- Python `s[:-b]`. -/
def pyDropRight (s : String) (b : Nat) : String :=
  ⟨s.data.take (s.data.length - b)⟩

/-- Python `s.lstrip(chars)`: drop leading characters belonging to `chars`. -/
def pyLstrip (chars : List Char) (s : String) : String :=
  ⟨s.data.dropWhile (chars.contains ·)⟩

/-- Python substring test `needle in hay` over character lists. -/
def subList : (needle hay : List Char) → Bool
  | n, [] => n.isEmpty
  | n, c :: t => n.isPrefixOf (c :: t) || subList n t

/-- Python `needle in hay` for strings. -/
def pySubstr (needle hay : String) : Bool :=
  subList needle.data hay.data

/-- Helper for Python `s.split()`: accumulate the current word (reversed). -/
def pyWordsAux : List Char → List Char → List (List Char)
  | [], acc => if acc.isEmpty then [] else [acc.reverse]
  | c :: cs, acc =>
    if isPySpace c then
      if acc.isEmpty then pyWordsAux cs [] else acc.reverse :: pyWordsAux cs []
    else pyWordsAux cs (c :: acc)

/-- Python `s.split()` with no arguments: split on whitespace runs, no empties. -/
def pySplit (s : String) : List String :=
  (pyWordsAux s.data []).map (⟨·⟩)

/-- `len(s.split())`, the repository's word count. -/
def pyWordCount (s : String) : Nat :=
  (pySplit s).length

/--
The response sanitizer, `ai_service.py` lines 160-166 (the same transform
appears at lines 363-368, 520-525, 574-577, 667-671):

    if response_text.startswith('```json'):
        response_text = response_text[7:-3]
    elif response_text.startswith('```'):
        response_text = response_text[3:-3]
    response_text = response_text.strip()
-/
def sanitize (s : String) : String :=
  pyStrip
    (if pyStartsWith s "```json" then pySliceDropBoth s 7 3
     else if pyStartsWith s "```" then pySliceDropBoth s 3 3
     else s)

/-! ### JSON values

Result of `json.loads`. Numbers are modelled as integers (no claim involves
a fractional literal); objects are association lists in insertion order,
with distinct keys, as produced by Python's `dict`.
-/

inductive Json where
  | null : Json
  | bool (b : Bool) : Json
  | num (n : Int) : Json
  | str (s : String) : Json
  | arr (elems : List Json) : Json
  | obj (fields : List (String × Json)) : Json

/-- Python `d[k] = v` on a `dict`: replace in place, or append a new key. -/
def setField : List (String × Json) → String → Json → List (String × Json)
  | [], k, v => [(k, v)]
  | (k', v') :: rest, k, v =>
    if k' == k then (k, v) :: rest else (k', v') :: setField rest k v

/-- Python truthiness of a parsed JSON value (`if not x`). -/
def Json.falsy : Json → Bool
  | .null => true
  | .bool b => !b
  | .num n => n == 0
  | .str s => s.isEmpty
  | .arr l => l.isEmpty
  | .obj o => o.isEmpty

mutual

/--
Python `str(x)` of a parsed JSON value, used by
`result[field] = [str(result[field])]` in `extract_key_points`.
String escaping inside nested `repr` output is not modelled; no claim
depends on the exact rendering.
-/
def Json.pyToString : Json → String
  | .null => "None"
  | .bool true => "True"
  | .bool false => "False"
  | .num n => toString n
  | .str s => s
  | .arr l => "[" ++ Json.pyReprList l ++ "]"
  | .obj o => "\x7b" ++ Json.pyReprObj o ++ "\x7d"

/-- Python `repr(x)` for elements of containers (strings get quotes). -/
def Json.pyReprElem : Json → String
  | .str s => String.mk [Char.ofNat 39] ++ s ++ String.mk [Char.ofNat 39]
  | j => Json.pyToString j

def Json.pyReprList : List Json → String
  | [] => ""
  | [x] => Json.pyReprElem x
  | x :: y :: xs => Json.pyReprElem x ++ ", " ++ Json.pyReprList (y :: xs)

def Json.pyReprObj : List (String × Json) → String
  | [] => ""
  | [(k, v)] => Json.pyReprElem (.str k) ++ ": " ++ Json.pyReprElem v
  | (k, v) :: kv :: rest =>
    Json.pyReprElem (.str k) ++ ": " ++ Json.pyReprElem v ++ ", "
      ++ Json.pyReprObj (kv :: rest)

end

/--
Python `key in x` for a parsed JSON value `x`: key lookup on a dict,
membership on a list, substring test on a string; a `TypeError` on other
types (modelled as `.error`).
-/
def pyIn (key : String) : Json → Except String Bool
  | .obj o => .ok (o.lookup key).isSome
  | .arr l => .ok (l.any fun e => match e with | .str s => s == key | _ => false)
  | .str s => .ok (pySubstr key s)
  | _ => .error "TypeError: argument is not iterable"

/-! ### Orchestrator results and the external backend

Every `AIService` method returns a Python dict that is either
`{"success": True, "data": ...}` or `{"success": False, "error": ...}`.
We model the returned dict as a record with both optional fields, so that
the two-shape guarantee is a provable property rather than a typing artifact.
-/

structure ORes where
  success : Bool
  data : Option Json := none
  error : Option String := none

/--
Outcome of the `httpx` POST to the Ollama generate endpoint, as observed by
the service code: one of the three classified transport failures, any other
exception raised by the call, or an HTTP response carrying a status code,
whether the decoded body was falsy (`if not response_data`), and the body's
`response` field (`response_data.get('response', '')`).
-/
inductive Backend where
  | readTimeout : Backend
  | connectTimeout : Backend
  | connectError : Backend
  | exc (msg : String) : Backend
  | ok (status : Nat) (bodyFalsy : Bool) (responseText : String) : Backend

/-- The external JSON parser: `json.loads` either raises (`.error`) or yields a value. -/
def Loads := String → Except String Json

/-! ### Quiz validation and repair (`ai_service.py` lines 374-406) -/

/-- `chr(65 + i) + ") "`: the option prefix expected at index `i`. -/
def expectedPrefix (i : Nat) : String :=
  String.mk [Char.ofNat (65 + i), ')', ' ']

/-- The character set of `lstrip('ABCD) ')`. -/
def lstripQuizChars : List Char := ['A', 'B', 'C', 'D', ')', ' ']

/--
Lines 393-396: coerce option `i` to start with its letter prefix.
`option.startswith` on a non-string raises `AttributeError`.
-/
def fixOption (i : Nat) : Json → Except String String
  | .str s =>
    .ok (if pyStartsWith s (expectedPrefix i) then s
         else expectedPrefix i ++ pyLstrip lstripQuizChars s)
  | _ => .error "AttributeError: object has no attribute startswith"

/-- Repair all four options, tracking the index. -/
def fixOptionsAux : Nat → List Json → Except String (List String)
  | _, [] => .ok []
  | i, o :: rest =>
    match fixOption i o with
    | .error e => .error e
    | .ok s =>
      match fixOptionsAux (i + 1) rest with
      | .error e => .error e
      | .ok rest' => .ok (s :: rest')

/--
Lines 398-406: make `correct_answer` exactly match one option. The options
have already been coerced to strings, so a non-string `correct_answer`
equals none of them, and its `.lstrip` then raises `AttributeError`.
-/
def fixCorrectAnswer (opts : List String) : Json → Except String String
  | .str s =>
    if opts.any (· == s) then .ok s
    else
      match opts.find? (fun o => pySubstr (pyLstrip lstripQuizChars s) o) with
      | some o => .ok o
      | none => .error "Invalid correct_answer: must match one of the options"
  | _ => .error "AttributeError: object has no attribute lstrip"

/-- Lines 384-406: validate and repair one question object. -/
def repairQuestion : Json → Except String Json
  | .obj q =>
    if (q.lookup "question").isSome && (q.lookup "options").isSome
        && (q.lookup "correct_answer").isSome && (q.lookup "explanation").isSome then
      match q.lookup "options" with
      | some (.arr opts) =>
        if opts.length == 4 then
          match fixOptionsAux 0 opts with
          | .error e => .error e
          | .ok opts' =>
            match fixCorrectAnswer opts' ((q.lookup "correct_answer").getD .null) with
            | .error e => .error e
            | .ok ca =>
              .ok (.obj (setField (setField q "options" (.arr (opts'.map .str)))
                    "correct_answer" (.str ca)))
        else .error "Invalid options format: must be an array of 4 items"
      | some _ => .error "Invalid options format: must be an array of 4 items"
      | none => .error "Invalid question format: missing required fields"
    else .error "Invalid question format: missing required fields"
  | _ => .error "TypeError: question is not a dict"

def repairQuestions : List Json → Except String (List Json)
  | [] => .ok []
  | q :: rest =>
    match repairQuestion q with
    | .error e => .error e
    | .ok q' =>
      match repairQuestions rest with
      | .error e => .error e
      | .ok rest' => .ok (q' :: rest')

/--
Lines 374-407: structure validation of the parsed quiz. A non-dict root
makes `"questions" not in result` / `result["questions"]` raise; the
distinct Python exception messages are collapsed into one `.error`,
which no claim distinguishes.
-/
def quizValidate : Json → Except String Json
  | .obj o =>
    match o.lookup "questions" with
    | some (.arr qs) =>
      if qs.isEmpty then .error "No questions generated"
      else
        match repairQuestions qs with
        | .error e => .error e
        | .ok qs' =>
          .ok (.obj (setField (setField o "total_questions" (.num qs.length))
                "questions" (.arr qs')))
    | some _ => .error "Invalid response format: missing or invalid questions array"
    | none => .error "Invalid response format: missing or invalid questions array"
  | _ => .error "Invalid response format: missing or invalid questions array"

/--
`AIService.generate_quiz` (`ai_service.py` lines 265-447), as a function of
the input text and the outcome of the external calls. The prompt build and
the 4000-character truncation affect only the prompt sent to the backend,
not the result shape. `loads` is the external `json.loads`, applied to the
fence-stripped response text exactly as in lines 362-371.
-/
def generate_quiz (text : String) (b : Backend) (loads : Loads) : ORes :=
  if (pyStrip text).isEmpty then
    { success := false, error := some "Input text cannot be empty" }
  else
    match b with
    | .readTimeout =>
      { success := false,
        error := some "Request timed out. The model is taking too long to respond." }
    | .connectTimeout =>
      { success := false,
        error := some "Could not connect to Ollama. Connection timed out." }
    | .connectError =>
      { success := false,
        error := some "Could not connect to Ollama. Make sure the service is running." }
    | .exc m =>
      { success := false, error := some ("Failed to generate quiz: " ++ m) }
    | .ok status _ responseText =>
      if status != 200 then
        { success := false,
          error := some "Failed to generate quiz: Ollama API request failed" }
      else
        let rt := pyStrip responseText
        if rt.isEmpty then
          { success := false,
            error := some "Failed to generate quiz: Empty response from Ollama" }
        else
          match loads (sanitize rt) with
          | .error _ =>
            { success := false,
              error := some "Failed to generate quiz: Invalid JSON format in response" }
          | .ok j =>
            match quizValidate j with
            | .ok j' => { success := true, data := some j' }
            | .error m =>
              { success := false, error := some ("Failed to generate quiz: " ++ m) }

/-! ### Notes summarization (`ai_service.py` lines 46-263) -/

/-- `all(key in summary_data for key in ["summary", "key_points", "word_count"])`. -/
def summaryKeysCheck (j : Json) : Except String Bool := do
  let a ← pyIn "summary" j
  if !a then return false
  let b ← pyIn "key_points" j
  if !b then return false
  let c ← pyIn "word_count" j
  return c

/--
`AIService.summarize_notes`, as a function of the request fields and the
external-call outcome. Style and method instructions, Bloom's-taxonomy
options and `max_length` only shape the prompt string, never the result.
On a JSON parse failure the raw sanitized text is degraded to a best-effort
summary structure and still returned as success (lines 182-191).
-/
def summarize_notes (b : Backend) (loads : Loads) : ORes :=
  match b with
  | .readTimeout =>
    { success := false,
      error := some "Request timed out. The model is taking too long to respond." }
  | .connectTimeout =>
    { success := false,
      error := some "Could not connect to Ollama. Connection timed out." }
  | .connectError =>
    { success := false,
      error := some "Could not connect to Ollama. Make sure the service is running." }
  | .exc m =>
    { success := false, error := some ("Failed to generate summary: " ++ m) }
  | .ok status bodyFalsy responseText =>
    if status != 200 then
      { success := false, error := some ("Ollama API error: " ++ toString status) }
    else if bodyFalsy then
      { success := false, error := some "Empty response from Ollama API" }
    else if responseText.isEmpty then
      { success := false, error := some "No response text from Ollama API" }
    else
      let cleaned := sanitize responseText
      match loads cleaned with
      | .error _ =>
        -- lines 182-191: JSONDecodeError degrades to a success with raw text
        { success := true,
          data := some (.obj [("summary", .str cleaned), ("key_points", .arr []),
            ("word_count", .num (pyWordCount cleaned))]) }
      | .ok j =>
        match summaryKeysCheck j with
        | .error m => { success := false, error := some m }
        | .ok true => { success := true, data := some j }
        | .ok false =>
          -- lines 171-176: rebuild with defaults; `.get` on a non-dict raises
          match j with
          | .obj o =>
            { success := true,
              data := some (.obj
                [("summary", (o.lookup "summary").getD (.str cleaned)),
                 ("key_points", (o.lookup "key_points").getD (.arr [])),
                 ("word_count",
                  (o.lookup "word_count").getD (.num (pyWordCount cleaned)))]) }
          | _ =>
            { success := false,
              error := some "AttributeError: object has no attribute get" }

/-! ### Key-point extraction (`ai_service.py` lines 816-999) -/

/--
Lines 895-902: scan stripped lines, start collecting at the first line
beginning with `{`, stop after a line ending with `}` (the break fires
whether or not collection has started).
-/
def scanJsonLinesAux : List String → Bool → List String
  | [], _ => []
  | l :: rest, inJson =>
    let line := pyStrip l
    let inJson' := inJson || pyStartsWith line "\x7b"
    let here := if inJson' then [line] else []
    if pyEndsWith line "\x7d" then here
    else here ++ scanJsonLinesAux rest inJson'

/--
The `extract_key_points` sanitizer (lines 891-915): line scan, then fence
stripping with three independent `if`s, then strip.
-/
def extractSanitize (s : String) : String :=
  let jsonLines := scanJsonLinesAux (s.splitOn "\n") false
  let t := if jsonLines.isEmpty then s else String.intercalate "\n" jsonLines
  let t := if pyStartsWith t "```json" then pyDropLeft t 7 else t
  let t := if pyStartsWith t "```" then pyDropLeft t 3 else t
  let t := if pyEndsWith t "```" then pyDropRight t 3 else t
  pyStrip t

def keyPointFields : List String :=
  ["key_points", "important_facts", "main_ideas", "vocabulary"]

/-- Lines 922-926: fill a missing field with `[]`, wrap a non-list into a list. -/
def kpFillField (o : List (String × Json)) (f : String) : List (String × Json) :=
  match o.lookup f with
  | none => setField o f (.arr [])
  | some (.arr _) => o
  | some v => setField o f (.arr [.str v.pyToString])

/-- Lines 929-931: replace a falsy (empty) field with a placeholder list. -/
def kpPlaceholder (f : String) : String :=
  "No " ++ f.replace "_" " " ++ " found"

def kpDefaultField (o : List (String × Json)) (f : String) : List (String × Json) :=
  match o.lookup f with
  | some v => if v.falsy then setField o f (.arr [.str (kpPlaceholder f)]) else o
  | none => o

/--
Lines 918-931: the key-point repair. On a non-dict parse result the first
`result[field] = []` raises `TypeError`, caught by the outer handler.
-/
def repairKeyPoints : Json → Except String Json
  | .obj o =>
    let o1 := keyPointFields.foldl kpFillField o
    let o2 := keyPointFields.foldl kpDefaultField o1
    .ok (.obj o2)
  | _ => .error "TypeError: list indices must be integers"

/-- Python `l[a:b]` for lists. -/
def pySliceRange (l : List String) (a b : Nat) : List String :=
  (l.drop a).take (b - a)

/--
Lines 941-955: best-effort fallback when JSON parsing fails: keep stripped
non-empty lines that neither start with `{` nor end with `}`.
-/
def kpFallback (tx : String) : Json :=
  let points := ((tx.splitOn "\n").map pyStrip).filter fun l =>
    !l.isEmpty && !pyStartsWith l "\x7b" && !pyEndsWith l "\x7d"
  .obj
    [("key_points",
      if points.isEmpty then .arr [.str "Could not extract key points"]
      else .arr ((pySliceRange points 0 3).map .str)),
     ("important_facts",
      if points.length > 3 then .arr ((pySliceRange points 3 5).map .str)
      else .arr [.str "No facts extracted"]),
     ("main_ideas",
      if points.length > 5 then .arr ((pySliceRange points 5 7).map .str)
      else .arr [.str "No main ideas extracted"]),
     ("vocabulary",
      if points.length > 7 then .arr ((pySliceRange points 7 9).map .str)
      else .arr [.str "No vocabulary extracted"])]

/-- `AIService.extract_key_points` (lines 816-999). -/
def extract_key_points (text : String) (b : Backend) (loads : Loads) : ORes :=
  if (pyStrip text).isEmpty then
    { success := false, error := some "Input text cannot be empty" }
  else
    match b with
    | .readTimeout =>
      { success := false,
        error := some "Request timed out. The model is taking too long to respond." }
    | .connectTimeout =>
      { success := false,
        error := some "Could not connect to Ollama. Connection timed out." }
    | .connectError =>
      { success := false,
        error := some "Could not connect to Ollama. Make sure the service is running." }
    | .exc m =>
      { success := false, error := some ("Failed to generate key points: " ++ m) }
    | .ok status bodyFalsy responseText =>
      if status != 200 then
        { success := false, error := some ("Ollama API error: " ++ toString status) }
      else if bodyFalsy then
        { success := false, error := some "Empty response from Ollama API" }
      else if responseText.isEmpty then
        { success := false, error := some "No response text from Ollama API" }
      else
        let tx := extractSanitize responseText
        match loads tx with
        | .ok j =>
          match repairKeyPoints j with
          | .ok j' => { success := true, data := some j' }
          | .error m =>
            { success := false,
              error := some ("Failed to generate key points: " ++ m) }
        | .error _ => { success := true, data := some (kpFallback tx) }

/-- The value of one field after the fill pass (lines 922-926). -/
def kpFillSpec : Option Json → Json
  | none => .arr []
  | some (.arr l) => .arr l
  | some v => .arr [.str v.pyToString]

/--
What the key-point repair must produce for one field, as a function of the
field's pre-repair value: a missing field is filled with an empty list and
then replaced by the placeholder; an empty list likewise; a non-empty list
is kept; a non-list value is wrapped into a one-element list of its string
rendering.
-/
def kpRepairSpec (f : String) : Option Json → Json
  | none => .arr [.str (kpPlaceholder f)]
  | some (.arr []) => .arr [.str (kpPlaceholder f)]
  | some (.arr (x :: xs)) => .arr (x :: xs)
  | some v => .arr [.str v.pyToString]

/-! ### Mind-map validation (`ai_service.py` lines 449-666) -/

/-- Lines 550-558: validate one subtopic object. -/
def validateSubtopic : Json → Except String Unit
  | .obj st =>
    match st.lookup "name" with
    | some (.str _) =>
      match st.lookup "details" with
      | some (.arr _) => .ok ()
      | _ => .error "Invalid subtopic format: missing or invalid details array"
    | _ => .error "Invalid subtopic format: missing or invalid name field"
  | _ => .error "Invalid subtopic format: must be an object"

def validateSubtopics : List Json → Except String Unit
  | [] => .ok ()
  | st :: rest =>
    match validateSubtopic st with
    | .ok _ => validateSubtopics rest
    | .error e => .error e

/-- Lines 539-558: validate one branch object. -/
def validateBranch : Json → Except String Unit
  | .obj br =>
    match br.lookup "name" with
    | some (.str _) =>
      match br.lookup "subtopics" with
      | some (.arr sts) => validateSubtopics sts
      | _ => .error "Invalid branch format: missing or invalid subtopics array"
    | _ => .error "Invalid branch format: missing or invalid name field"
  | _ => .error "Invalid branch format: must be an object"

def validateBranches : List Json → Except String Unit
  | [] => .ok ()
  | br :: rest =>
    match validateBranch br with
    | .ok _ => validateBranches rest
    | .error e => .error e

/--
Lines 528-558: validation of the parsed mind map. Pure validation: the
value is returned unchanged on success.
-/
def mindmapValidate (j : Json) : Except String Json :=
  match j with
  | .obj o =>
    match o.lookup "topic" with
    | some (.str _) =>
      match o.lookup "branches" with
      | some (.arr bs) =>
        match validateBranches bs with
        | .ok _ => .ok j
        | .error e => .error e
      | _ => .error "Invalid response format: missing or invalid branches array"
    | _ => .error "Invalid response format: missing or invalid topic field"
  | _ => .error "Invalid response format: root must be an object"

/-- `AIService.create_mindmap` (lines 449-666). -/
def create_mindmap (topic : String) (b : Backend) (loads : Loads) : ORes :=
  if (pyStrip topic).isEmpty then
    { success := false, error := some "Topic cannot be empty" }
  else
    match b with
    | .readTimeout =>
      { success := false,
        error := some "Request timed out. The model is taking too long to respond." }
    | .connectTimeout =>
      { success := false,
        error := some "Could not connect to Ollama. Connection timed out." }
    | .connectError =>
      { success := false,
        error := some "Could not connect to Ollama. Make sure the service is running." }
    | .exc m =>
      { success := false, error := some ("Failed to process response: " ++ m) }
    | .ok status _ responseText =>
      if status != 200 then
        { success := false,
          error := some "Failed to process response: Ollama API request failed" }
      else
        let rt := pyStrip responseText
        if rt.isEmpty then
          { success := false,
            error := some "Failed to process response: Empty response from Ollama" }
        else
          match loads (sanitize rt) with
          | .error m =>
            { success := false,
              error := some ("Invalid JSON format in response: " ++ m) }
          | .ok j =>
            match mindmapValidate j with
            | .ok j' => { success := true, data := some j' }
            | .error m =>
              { success := false,
                error := some ("Failed to process response: " ++ m) }

/-! ### PDF extraction fallback (`pdf_service.py` lines 15-118) -/

/-- The `data` dict of a successful extraction. -/
structure PDFData where
  text : String
  pages : List (Nat × String)
  total_pages : Nat
  word_count : Nat
  extraction_method : String

structure PDFResult where
  success : Bool
  data : Option PDFData := none
  error : Option String := none

/-- `word_count` of a result (0 when there is no data). -/
def PDFResult.wc (r : PDFResult) : Nat :=
  match r.data with
  | some d => d.word_count
  | none => 0

/--
`PDFService.extract_text_pypdf2` (lines 15-51), as a function of what the
external library produced: an exception, or one extracted text per page.
-/
def extract_text_pypdf2 (pages : Except String (List String)) : PDFResult :=
  match pages with
  | .error e => { success := false, error := some e }
  | .ok ps =>
    let content := (ps.enum.filterMap fun pt =>
      if (pyStrip pt.2).isEmpty then none else some (pt.1 + 1, pyStrip pt.2))
    let fullText := String.intercalate "\n\n" (content.map (·.2))
    { success := true,
      data := some ⟨fullText, content, ps.length, pyWordCount fullText, "PyPDF2"⟩ }

/--
`PDFService.extract_text_pdfplumber` (lines 53-90). `page.extract_text()`
may return `None` here, hence `Option String` per page; the guard is
`if text and text.strip():`.
-/
def extract_text_pdfplumber (pages : Except String (List (Option String))) :
    PDFResult :=
  match pages with
  | .error e => { success := false, error := some e }
  | .ok ps =>
    let content := (ps.enum.filterMap fun pt =>
      match pt.2 with
      | some t => if t.isEmpty || (pyStrip t).isEmpty then none
                  else some (pt.1 + 1, pyStrip t)
      | none => none)
    let fullText := String.intercalate "\n\n" (content.map (·.2))
    { success := true,
      data := some ⟨fullText, content, ps.length, pyWordCount fullText,
        "pdfplumber"⟩ }

/--
`PDFService.extract_text_combined` (lines 92-118): pdfplumber first, then
PyPDF2, preferring success with a non-zero word count; otherwise
"return the better error message" (lines 107-111).
-/
def extract_text_combined (plumberPages : Except String (List (Option String)))
    (pypdfPages : Except String (List String)) : PDFResult :=
  let r1 := extract_text_pdfplumber plumberPages
  if r1.success && r1.wc > 0 then r1
  else
    let r2 := extract_text_pypdf2 pypdfPages
    if r2.success && r2.wc > 0 then r2
    else if r1.success then r2
    else r1

/-! ### Notes route validation (`api/notes.py` lines 40-149) -/

inductive HandlerResult where
  | clientError (code : Nat) (detail : String) : HandlerResult
  | serverError (code : Nat) (detail : String) : HandlerResult
  | ok (summary : Json) (keyPoints : Json) (wordCount : Json) : HandlerResult

/-- Lines 49-74: the request validation sequence, first failure wins. -/
def summarizeValidate (text stype smode : String) : Option (Nat × String) :=
  if (pyStrip text).isEmpty then some (400, "Text cannot be empty")
  else if text.length > 10000 then
    some (400, "Text too long. Maximum 10,000 characters allowed.")
  else if ([ "abstractive", "extractive" ] : List String).contains stype = false then
    some (400, "Invalid summarization type. Must be abstractive or extractive")
  else if ([ "narrative", "beginner", "technical", "bullet" ] : List String).contains
      smode = false then
    some (400, "Invalid summary mode")
  else none

/--
The `/notes/summarize` route handler (lines 40-149): validation first, and
only if it passes is the AI service invoked on the backend outcome.
-/
def summarize_notes_handler (text stype smode : String) (b : Backend)
    (loads : Loads) : HandlerResult :=
  match summarizeValidate text stype smode with
  | some (code, detail) => .clientError code detail
  | none =>
    let result := summarize_notes b loads
    if !result.success then
      .serverError 500 ("AI processing failed: " ++ result.error.getD "Unknown error")
    else
      match result.data with
      | none => .serverError 500 "No summary data in AI response"
      | some j =>
        if j.falsy then .serverError 500 "No summary data in AI response"
        else
          match j with
          | .obj o =>
            .ok ((o.lookup "summary").getD (.str ""))
              ((o.lookup "key_points").getD (.arr []))
              ((o.lookup "word_count").getD (.num 0))
          | _ => .serverError 500 "AttributeError: object has no attribute get"

/-! ### Voice transcription (`voice_service.py` lines 134-245) -/

/-- One call to `recognizer.recognize_google`. -/
inductive RecOutcome where
  | ok (text : String) : RecOutcome
  | unknown : RecOutcome
  | requestError (msg : String) : RecOutcome

structure TransResult where
  success : Bool
  transcription : Option String := none
  word_count : Option Nat := none
  error : Option String := none

/-- `range(0, int(duration), 30)`: the chunk offsets for long audio. -/
def chunkOffsets (duration : Nat) : List Nat :=
  (List.range ((duration + 29) / 30)).map (30 * ·)

/--
Lines 155-165: transcribe each 30-second chunk, silently skipping chunks
the recognizer cannot understand (`sr.UnknownValueError → continue`);
`sr.RequestError` is re-raised and aborts the whole call.
-/
def transcribeChunks (rec : Nat → RecOutcome) : List Nat → Except String (List String)
  | [] => .ok []
  | off :: rest =>
    match rec off with
    | .ok t =>
      match transcribeChunks rec rest with
      | .error e => .error e
      | .ok ts => .ok (t :: ts)
    | .unknown => transcribeChunks rec rest
    | .requestError m =>
      .error ("Could not request results from speech recognition service: " ++ m)

/--
Lines 167-189: short audio, up to `max_attempts = 3` attempts with
progressively lower energy thresholds; an `UnknownValueError` on the last
attempt is re-raised with a fixed message; an empty recognized text does
not break the loop.
-/
def transcribeAttempts (rec : Nat → RecOutcome) : Nat → Except String (List String)
  | 0 => .ok []
  | Nat.succ k =>
    let attempt := 3 - (k + 1)
    match rec attempt with
    | .ok t =>
      if t.isEmpty then transcribeAttempts rec k else .ok [t]
    | .unknown =>
      if k == 0 then
        .error "Could not understand the audio. Please speak clearly and try again."
      else transcribeAttempts rec k
    | .requestError m =>
      .error ("Could not request results from speech recognition service: " ++ m)

/--
`VoiceService.transcribe_audio_file` (lines 134-245), as a function of the
audio duration in whole seconds and the recognizer outcomes. `recChunk off`
is the recognizer result for the 30-second chunk at `off` (long audio);
`recAttempt i` is the result of whole-file attempt `i` (short audio).
Durations are modelled as naturals: every claim concerns only the
comparisons `duration > 60` and chunk counting.
-/
def transcribe_audio_file (duration : Nat) (recChunk recAttempt : Nat → RecOutcome) :
    TransResult :=
  let segs :=
    if duration > 60 then transcribeChunks recChunk (chunkOffsets duration)
    else transcribeAttempts recAttempt 3
  match segs with
  | .error e => { success := false, error := some e }
  | .ok segments =>
    let fullText := String.intercalate " " segments
    { success := true, transcription := some fullText,
      word_count := some (pyWordCount fullText) }

/-! ### Result-shape predicates used by the claims -/

/-- The validated shape of one quiz question, as guaranteed by the repair step. -/
def QuestionShape (q : Json) : Prop :=
  ∃ (qo : List (String × Json)) (opts : List String) (ca : String), q = .obj qo
    ∧ qo.lookup "options" = some (.arr (opts.map Json.str))
    ∧ opts.length = 4
    ∧ (∀ i, (h : i < opts.length) →
        pyStartsWith (opts.get ⟨i, h⟩) (expectedPrefix i) = true)
    ∧ qo.lookup "correct_answer" = some (.str ca)
    ∧ ca ∈ opts

/-- The validated shape of the whole quiz payload. -/
def QuizShape (j : Json) : Prop :=
  ∃ (o : List (String × Json)) (qs : List Json), j = .obj o
    ∧ o.lookup "questions" = some (.arr qs)
    ∧ ∀ q ∈ qs, QuestionShape q

/-- The validated shape of a mind-map subtopic. -/
def SubtopicShape (st : Json) : Prop :=
  ∃ (so : List (String × Json)) (nm : String) (dl : List Json), st = .obj so
    ∧ so.lookup "name" = some (.str nm)
    ∧ so.lookup "details" = some (.arr dl)

/-- The validated shape of a mind-map branch (its subtopic list may be empty). -/
def BranchShape (br : Json) : Prop :=
  ∃ (bo : List (String × Json)) (nm : String) (sts : List Json), br = .obj bo
    ∧ bo.lookup "name" = some (.str nm)
    ∧ bo.lookup "subtopics" = some (.arr sts)
    ∧ ∀ st ∈ sts, SubtopicShape st

/-- The validated shape of the whole mind map (its branch list may be empty). -/
def MindmapShape (j : Json) : Prop :=
  ∃ (o : List (String × Json)) (t : String) (bs : List Json), j = .obj o
    ∧ o.lookup "topic" = some (.str t)
    ∧ o.lookup "branches" = some (.arr bs)
    ∧ ∀ br ∈ bs, BranchShape br

/-- The two admissible orchestrator outcome shapes. -/
def OResShape (r : ORes) : Prop :=
  (r.success = true ∧ r.data ≠ none ∧ r.error = none)
  ∨ (r.success = false ∧ r.data = none ∧ r.error ≠ none)

/-! ### Lemmas about `pyStrip` -/

theorem dropWhile_head_false (p : Char → Bool) (l : List Char) :
    ∀ c t, l.dropWhile p = c :: t → p c = false := by
  induction l with
  | nil => intro c t h; simp [List.dropWhile] at h
  | cons a l ih =>
    intro c t h
    by_cases hp : p a
    · rw [List.dropWhile_cons_of_pos hp] at h
      exact ih c t h
    · rw [List.dropWhile_cons_of_neg hp] at h
      cases h
      simpa using hp

theorem dropWhile_dropWhile (p : Char → Bool) (l : List Char) :
    (l.dropWhile p).dropWhile p = l.dropWhile p := by
  cases h : l.dropWhile p with
  | nil => simp
  | cons c t =>
    have hc : p c = false := dropWhile_head_false p l c t h
    rw [List.dropWhile_cons_of_neg (by simp [hc])]

theorem stripRightList_idem (l : List Char) :
    stripRightList (stripRightList l) = stripRightList l := by
  unfold stripRightList
  rw [List.reverse_reverse, dropWhile_dropWhile]

/-- `stripRightList` removes characters only from the back: it is a prefix. -/
theorem stripRightList_prefix (l : List Char) : stripRightList l <+: l := by
  unfold stripRightList
  have h : l.reverse.dropWhile isPySpace <:+ l.reverse := List.dropWhile_suffix _
  have := List.reverse_prefix.mpr (by simpa using h)
  simpa using this

theorem dropWhile_stripRight_of_head_false (l : List Char)
    (hl : ∀ c t, l = c :: t → isPySpace c = false) :
    (stripRightList l).dropWhile isPySpace = stripRightList l := by
  cases h : stripRightList l with
  | nil => simp
  | cons c t =>
    have hpre : stripRightList l <+: l := stripRightList_prefix l
    rw [h] at hpre
    obtain ⟨r, hr⟩ := hpre
    have hc : isPySpace c = false := hl c (t ++ r) (by simpa using hr.symm)
    rw [List.dropWhile_cons_of_neg (by simp [hc])]

theorem pyStripList_idem (l : List Char) :
    pyStripList (pyStripList l) = pyStripList l := by
  unfold pyStripList
  rw [dropWhile_stripRight_of_head_false (l.dropWhile isPySpace)
    (fun c t h => dropWhile_head_false isPySpace l c t h),
    stripRightList_idem]

theorem pyStrip_idem (s : String) : pyStrip (pyStrip s) = pyStrip s := by
  unfold pyStrip
  simp [pyStripList_idem]

/-! ### Lemmas about `sanitize` -/

theorem pyStartsWith_trans_json (s : String) :
    pyStartsWith s "```json" = true → pyStartsWith s "```" = true := by
  unfold pyStartsWith
  intro h
  have h' : ("```json".data).isPrefixOf s.data = true := h
  rw [List.isPrefixOf_iff_prefix] at h' ⊢
  exact List.IsPrefix.trans (by decide) h'

/-- `sanitize` on a string that does not begin with a fence marker is plain `strip`. -/
theorem sanitize_no_fence (s : String) (h : pyStartsWith s "```" = false) :
    sanitize s = pyStrip s := by
  unfold sanitize
  have hj : pyStartsWith s "```json" = false := by
    by_contra hc
    simp only [Bool.not_eq_false] at hc
    rw [pyStartsWith_trans_json s hc] at h
    cases h
  rw [hj, h]
  simp

theorem string_data_append (a b : String) : (a ++ b).data = a.data ++ b.data := by
  cases a; cases b; rfl

theorem pyStartsWith_append (a b : String) : pyStartsWith (a ++ b) a = true := by
  unfold pyStartsWith
  rw [List.isPrefixOf_iff_prefix, string_data_append]
  exact List.prefix_append _ _

/-- Every branch of `sanitize` ends in `pyStrip`, so its output is strip-stable. -/
theorem pyStrip_sanitize (s : String) : pyStrip (sanitize s) = sanitize s := by
  unfold sanitize
  split <;> [skip; split] <;> exact pyStrip_idem _

/--
C4 (counterexample). The sanitizer is not idempotent: a fenced payload
surrounded by whitespace is only stripped by the first pass, and the second
pass then unwraps the fence.
-/
theorem sanitize_not_idempotent :
    sanitize (sanitize " ```json abc``` ") ≠ sanitize " ```json abc``` " := by
  decide

/--
C4 (amended). The sanitizer is idempotent on every string whose sanitized
form does not itself begin with a fence marker; and sanitizing a string
that does not begin with a fence marker only strips leading and trailing
whitespace.
-/
theorem sanitize_idem_amended (s : String) :
    (pyStartsWith (sanitize s) "```" = false →
      sanitize (sanitize s) = sanitize s)
    ∧ (pyStartsWith s "```" = false → sanitize s = pyStrip s) := by
  constructor
  · intro h
    rw [sanitize_no_fence _ h, pyStrip_sanitize]
  · exact sanitize_no_fence s

theorem sanitize_idem_amended_witness :
    sanitize (sanitize "  hello \x7b1: 2\x7d  ") = sanitize "  hello \x7b1: 2\x7d  "
    ∧ sanitize "  hello \x7b1: 2\x7d  " = pyStrip "  hello \x7b1: 2\x7d  " :=
  ⟨(sanitize_idem_amended "  hello \x7b1: 2\x7d  ").1 (by decide),
   (sanitize_idem_amended "  hello \x7b1: 2\x7d  ").2 (by decide)⟩

/--
C5. Scenario A: on the parsed model output with unprefixed options
`["First", "Second", "Third", "Fourth"]` and `correct_answer` `"First"`,
`generate_quiz` repairs the options to `["A) First", "B) Second",
"C) Third", "D) Fourth"]` and rebinds `correct_answer` to `"A) First"`.
-/
theorem generate_quiz_scenario_A :
    generate_quiz "some source text" (.ok 200 false "raw model output")
      (fun _ => .ok (.obj [("questions", .arr [.obj
        [("question", .str "Q1"),
         ("options", .arr [.str "First", .str "Second", .str "Third", .str "Fourth"]),
         ("correct_answer", .str "First"),
         ("explanation", .str "...")]]),
        ("total_questions", .num 1)]))
    = { success := true,
        data := some (.obj [("questions", .arr [.obj
          [("question", .str "Q1"),
           ("options", .arr [.str "A) First", .str "B) Second", .str "C) Third",
             .str "D) Fourth"]),
           ("correct_answer", .str "A) First"),
           ("explanation", .str "...")]]),
          ("total_questions", .num 1)]) } := by
  rfl

/--
C2. Claimed: when both extraction methods complete but both yield zero
words, `extract_text_combined` fails. The code instead returns the PyPDF2
result, which is a success tagged with `word_count` 0 and empty text:
evaluated here on a one-page PDF with no extractable text (pdfplumber
gives page text `None`, PyPDF2 gives an empty page string).
-/
theorem extract_text_combined_zero_words_success :
    extract_text_combined (.ok [none]) (.ok [""])
      = { success := true, data := some ⟨"", [], 1, 0, "PyPDF2"⟩ }
    ∧ (extract_text_combined (.ok [none]) (.ok [""])).wc = 0 := by
  exact ⟨rfl, rfl⟩

/--
C7. Scenario C: when pdfplumber succeeds with zero words and PyPDF2
succeeds with 120 words, the combined extraction returns the PyPDF2 result,
tagged with extraction method "PyPDF2" and carrying the 120-word text.
-/
theorem extract_text_combined_falls_back_to_pypdf2
    (p1 : Except String (List (Option String))) (p2 : Except String (List String))
    (_h1 : (extract_text_pdfplumber p1).success = true)
    (h1w : (extract_text_pdfplumber p1).wc = 0)
    (h2 : (extract_text_pypdf2 p2).success = true)
    (h2w : (extract_text_pypdf2 p2).wc = 120) :
    extract_text_combined p1 p2 = extract_text_pypdf2 p2
    ∧ ∃ d, (extract_text_pypdf2 p2).data = some d
        ∧ d.word_count = 120 ∧ d.extraction_method = "PyPDF2" := by
  constructor
  · simp [extract_text_combined, h1w, h2, h2w]
  · cases p2 with
    | error e => simp [extract_text_pypdf2] at h2
    | ok ps =>
      refine ⟨_, rfl, ?_, rfl⟩
      simpa [extract_text_pypdf2, PDFResult.wc] using h2w

set_option maxRecDepth 8192 in
theorem extract_text_combined_falls_back_to_pypdf2_witness :
    extract_text_combined (.ok [none])
        (.ok [String.intercalate " " (List.replicate 120 "w")])
      = extract_text_pypdf2 (.ok [String.intercalate " " (List.replicate 120 "w")])
    ∧ ∃ d, (extract_text_pypdf2
        (.ok [String.intercalate " " (List.replicate 120 "w")])).data = some d
      ∧ d.word_count = 120 ∧ d.extraction_method = "PyPDF2" :=
  extract_text_combined_falls_back_to_pypdf2 (.ok [none]) _
    (by decide) (by decide) (by decide) (by decide)

/--
C6. Scenario B: any summarize request whose text is longer than 10,000
characters is rejected with a 400 client validation error, and the
handler's outcome does not depend on the backend or on the JSON parser —
no backend call can influence it.
-/
theorem summarize_handler_rejects_long_text
    (text stype smode : String) (b b' : Backend) (loads loads' : Loads)
    (h : text.length > 10000) :
    (∃ d, summarize_notes_handler text stype smode b loads = .clientError 400 d)
    ∧ summarize_notes_handler text stype smode b loads
      = summarize_notes_handler text stype smode b' loads' := by
  have hv : ∃ d, summarizeValidate text stype smode = some (400, d) := by
    unfold summarizeValidate
    by_cases he : (pyStrip text).isEmpty
    · rw [if_pos he]
      exact ⟨_, rfl⟩
    · rw [if_neg he, if_pos h]
      exact ⟨_, rfl⟩
  obtain ⟨d, hd⟩ := hv
  unfold summarize_notes_handler
  rw [hd]
  exact ⟨⟨d, rfl⟩, rfl⟩

theorem summarize_handler_rejects_long_text_witness :
    (∃ d, summarize_notes_handler (String.mk (List.replicate 10001 'a'))
        "abstractive" "narrative" (.ok 200 false "resp") (fun _ => .error "e")
      = .clientError 400 d)
    ∧ summarize_notes_handler (String.mk (List.replicate 10001 'a'))
        "abstractive" "narrative" (.ok 200 false "resp") (fun _ => .error "e")
      = summarize_notes_handler (String.mk (List.replicate 10001 'a'))
        "abstractive" "narrative" .connectError (fun _ => .ok .null) :=
  summarize_handler_rejects_long_text _ _ _ _ _ _ _
    (by show 10000 < (List.replicate 10001 'a').length
        rw [List.length_replicate]
        omega)

theorem transcribeChunks_all_unknown (rec : Nat → RecOutcome)
    (l : List Nat) (h : ∀ off, rec off = .unknown) :
    transcribeChunks rec l = .ok [] := by
  induction l with
  | nil => rfl
  | cons off rest ih =>
    unfold transcribeChunks
    rw [h off]
    exact ih

/--
C10. For audio longer than 60 seconds the service transcribes 30-second
chunks and silently skips each chunk the recognizer cannot understand:
if every chunk is unintelligible it returns success with an empty
transcription and word count 0. For audio of at most 60 seconds it makes
at most 3 attempts and, if all report "could not understand", fails with
an error instead.
-/
theorem transcribe_long_skips_short_fails :
    (∀ (duration : Nat) (recChunk recAttempt : Nat → RecOutcome),
      duration > 60 → (∀ off, recChunk off = .unknown) →
      transcribe_audio_file duration recChunk recAttempt
        = { success := true, transcription := some "", word_count := some 0 })
    ∧ (∀ (duration : Nat) (recChunk recAttempt : Nat → RecOutcome),
      duration ≤ 60 → (∀ i, recAttempt i = .unknown) →
      transcribe_audio_file duration recChunk recAttempt
        = { success := false,
            error := some "Could not understand the audio. Please speak clearly and try again." }) := by
  constructor
  · intro duration recChunk recAttempt hdur hrec
    unfold transcribe_audio_file
    rw [if_pos hdur, transcribeChunks_all_unknown recChunk _ hrec]
    rfl
  · intro duration recChunk recAttempt hdur hrec
    have hfun : recAttempt = fun _ => RecOutcome.unknown := funext hrec
    subst hfun
    unfold transcribe_audio_file
    rw [if_neg (by omega)]
    rfl

theorem transcribe_long_skips_short_fails_witness :
    transcribe_audio_file 90 (fun _ => .unknown) (fun _ => .unknown)
      = { success := true, transcription := some "", word_count := some 0 }
    ∧ transcribe_audio_file 30 (fun _ => .unknown) (fun _ => .unknown)
      = { success := false,
          error := some "Could not understand the audio. Please speak clearly and try again." } :=
  ⟨transcribe_long_skips_short_fails.1 90 _ _ (by decide) (fun _ => rfl),
   transcribe_long_skips_short_fails.2 30 _ _ (by decide) (fun _ => rfl)⟩

/--
C3 (counterexample). `create_mindmap` accepts a parsed mind map whose
`branches` list is empty and returns it tagged success: the validation
never checks that `branches` or any `subtopics` list is non-empty.
-/
theorem create_mindmap_accepts_empty_branches :
    create_mindmap "Topic" (.ok 200 false "resp")
      (fun _ => .ok (.obj [("topic", .str "Topic"), ("branches", .arr [])]))
    = { success := true,
        data := some (.obj [("topic", .str "Topic"), ("branches", .arr [])]) }
    ∧ ([("topic", Json.str "Topic"), ("branches", Json.arr [])].lookup "branches")
      = some (.arr []) := ⟨rfl, rfl⟩


theorem validateSubtopic_ok (st : Json) (h : validateSubtopic st = .ok ()) :
    SubtopicShape st := by
  cases st with
  | obj so =>
    simp only [validateSubtopic] at h
    cases hn : so.lookup "name" with
    | none => rw [hn] at h; exact Except.noConfusion h
    | some nv =>
      rw [hn] at h
      cases nv with
      | str nm =>
        cases hd : so.lookup "details" with
        | none => rw [hd] at h; exact Except.noConfusion h
        | some dv =>
          rw [hd] at h
          cases dv with
          | arr dl => exact ⟨so, nm, dl, rfl, hn, hd⟩
          | null => exact Except.noConfusion h
          | bool x => exact Except.noConfusion h
          | num x => exact Except.noConfusion h
          | str x => exact Except.noConfusion h
          | obj x => exact Except.noConfusion h
      | null => exact Except.noConfusion h
      | bool x => exact Except.noConfusion h
      | num x => exact Except.noConfusion h
      | arr x => exact Except.noConfusion h
      | obj x => exact Except.noConfusion h
  | null => exact Except.noConfusion h
  | bool b => exact Except.noConfusion h
  | num n => exact Except.noConfusion h
  | str s => exact Except.noConfusion h
  | arr l => exact Except.noConfusion h

theorem validateSubtopics_ok (sts : List Json) (h : validateSubtopics sts = .ok ()) :
    ∀ st ∈ sts, SubtopicShape st := by
  induction sts with
  | nil => intro st hst; cases hst
  | cons st rest ih =>
    intro st' hst'
    simp only [validateSubtopics] at h
    cases hv : validateSubtopic st with
    | error e => rw [hv] at h; exact Except.noConfusion h
    | ok u =>
      rw [hv] at h
      cases hst' with
      | head => cases u; exact validateSubtopic_ok st hv
      | tail _ hmem => exact ih h st' hmem

theorem validateBranch_ok (br : Json) (h : validateBranch br = .ok ()) :
    BranchShape br := by
  cases br with
  | obj bo =>
    simp only [validateBranch] at h
    cases hn : bo.lookup "name" with
    | none => rw [hn] at h; exact Except.noConfusion h
    | some nv =>
      rw [hn] at h
      cases nv with
      | str nm =>
        cases hs : bo.lookup "subtopics" with
        | none => rw [hs] at h; exact Except.noConfusion h
        | some sv =>
          rw [hs] at h
          cases sv with
          | arr sts => exact ⟨bo, nm, sts, rfl, hn, hs, validateSubtopics_ok sts h⟩
          | null => exact Except.noConfusion h
          | bool x => exact Except.noConfusion h
          | num x => exact Except.noConfusion h
          | str x => exact Except.noConfusion h
          | obj x => exact Except.noConfusion h
      | null => exact Except.noConfusion h
      | bool x => exact Except.noConfusion h
      | num x => exact Except.noConfusion h
      | arr x => exact Except.noConfusion h
      | obj x => exact Except.noConfusion h
  | null => exact Except.noConfusion h
  | bool b => exact Except.noConfusion h
  | num n => exact Except.noConfusion h
  | str s => exact Except.noConfusion h
  | arr l => exact Except.noConfusion h

theorem validateBranches_ok (bs : List Json) (h : validateBranches bs = .ok ()) :
    ∀ br ∈ bs, BranchShape br := by
  induction bs with
  | nil => intro br hbr; cases hbr
  | cons br rest ih =>
    intro br' hbr'
    simp only [validateBranches] at h
    cases hv : validateBranch br with
    | error e => rw [hv] at h; exact Except.noConfusion h
    | ok u =>
      rw [hv] at h
      cases hbr' with
      | head => cases u; exact validateBranch_ok br hv
      | tail _ hmem => exact ih h br' hmem

theorem mindmapValidate_ok (j j' : Json) (h : mindmapValidate j = .ok j') :
    j' = j ∧ MindmapShape j := by
  cases j with
  | obj o =>
    simp only [mindmapValidate] at h
    cases ht : o.lookup "topic" with
    | none => rw [ht] at h; exact Except.noConfusion h
    | some tv =>
      rw [ht] at h
      cases tv with
      | str t =>
        cases hb : o.lookup "branches" with
        | none => rw [hb] at h; exact Except.noConfusion h
        | some bv =>
          rw [hb] at h
          cases bv with
          | arr bs =>
            dsimp only at h
            cases hv : validateBranches bs with
            | error e => rw [hv] at h; exact Except.noConfusion h
            | ok u =>
              rw [hv] at h
              have hj : (Except.ok (Json.obj o) : Except String Json) = .ok j' := h
              injection hj with hj
              exact ⟨hj.symm, o, t, bs, rfl, ht, hb, validateBranches_ok bs hv⟩
          | null => exact Except.noConfusion h
          | bool x => exact Except.noConfusion h
          | num x => exact Except.noConfusion h
          | str x => exact Except.noConfusion h
          | obj x => exact Except.noConfusion h
      | null => exact Except.noConfusion h
      | bool x => exact Except.noConfusion h
      | num x => exact Except.noConfusion h
      | arr x => exact Except.noConfusion h
      | obj x => exact Except.noConfusion h
  | null => exact Except.noConfusion h
  | bool b => exact Except.noConfusion h
  | num n => exact Except.noConfusion h
  | str s => exact Except.noConfusion h
  | arr l => exact Except.noConfusion h

/--
C3 (amended). For every result of `create_mindmap` returned with success
true, `data` is an object whose `topic` is a string and whose `branches`
field is a list (possibly empty) of branch objects; every branch has a
string `name` and a `subtopics` list (possibly empty); every subtopic has
a string `name` and a `details` list. Non-emptiness of `branches` and of
each `subtopics` list is not enforced by the code.
-/
theorem create_mindmap_success_shape (topic : String) (b : Backend)
    (loads : Loads) (h : (create_mindmap topic b loads).success = true) :
    ∃ j, (create_mindmap topic b loads).data = some j ∧ MindmapShape j := by
  unfold create_mindmap at h ⊢
  by_cases htop : (pyStrip topic).isEmpty
  · rw [if_pos htop] at h; exact absurd h (by simp)
  · rw [if_neg htop] at h ⊢
    cases b with
    | readTimeout => exact absurd h (by simp)
    | connectTimeout => exact absurd h (by simp)
    | connectError => exact absurd h (by simp)
    | exc m => exact absurd h (by simp)
    | ok status bodyFalsy responseText =>
      dsimp only at h ⊢
      by_cases hst : (status != 200) = true
      · rw [if_pos hst] at h; exact absurd h (by simp)
      · rw [if_neg hst] at h ⊢
        by_cases hrt : (pyStrip responseText).isEmpty
        · rw [if_pos hrt] at h; exact absurd h (by simp)
        · rw [if_neg hrt] at h ⊢
          cases hl : loads (sanitize (pyStrip responseText)) with
          | error m => rw [hl] at h; exact absurd h (by simp)
          | ok j =>
            rw [hl] at h
            dsimp only at h
            cases hv : mindmapValidate j with
            | error m => rw [hv] at h; exact absurd h (by simp)
            | ok j' =>
              obtain ⟨hj, hshape⟩ := mindmapValidate_ok j j' hv
              refine ⟨j', ?_, hj.symm ▸ hshape⟩
              show (match mindmapValidate j with
                    | Except.ok j2 =>
                      ({ success := true, data := some j2, error := none } : ORes)
                    | Except.error m =>
                      { success := false, data := none,
                        error := some ("Failed to process response: " ++ m) }).data
                  = some j'
              rw [hv]

theorem create_mindmap_success_shape_witness :
    ∃ j, (create_mindmap "Topic" (.ok 200 false "resp")
      (fun _ => .ok (.obj [("topic", .str "T"),
        ("branches", .arr [.obj [("name", .str "b1"),
          ("subtopics", .arr [.obj [("name", .str "s1"),
            ("details", .arr [.str "d1"])]])]])]))).data = some j
      ∧ MindmapShape j :=
  create_mindmap_success_shape "Topic" (.ok 200 false "resp") _ (by rfl)

theorem lookup_setField_self (o : List (String × Json)) (k : String) (v : Json) :
    (setField o k v).lookup k = some v := by
  induction o with
  | nil => simp [setField, List.lookup]
  | cons kv rest ih =>
    obtain ⟨k', v'⟩ := kv
    unfold setField
    by_cases hk : k' == k
    · rw [if_pos hk]
      simp [List.lookup]
    · rw [if_neg hk]
      have hne : (k == k') = false := by
        apply beq_eq_false_iff_ne.mpr
        intro hc
        subst hc
        simp at hk
      simp [List.lookup, hne, ih]

theorem lookup_setField_ne (o : List (String × Json)) (k k' : String) (v : Json)
    (h : k' ≠ k) : (setField o k v).lookup k' = o.lookup k' := by
  induction o with
  | nil =>
    simp [setField, List.lookup, beq_eq_false_iff_ne.mpr h]
  | cons kv rest ih =>
    obtain ⟨k0, v0⟩ := kv
    unfold setField
    by_cases hk : k0 == k
    · rw [if_pos hk]
      have hkk : k0 = k := eq_of_beq hk
      subst hkk
      simp [List.lookup, beq_eq_false_iff_ne.mpr h]
    · rw [if_neg hk]
      by_cases hk0 : k' == k0
      · simp [List.lookup, hk0]
      · simp [List.lookup, hk0, ih]

theorem fixOption_ok (i : Nat) (o : Json) (s : String)
    (h : fixOption i o = .ok s) : pyStartsWith s (expectedPrefix i) = true := by
  cases o with
  | str s0 =>
    simp only [fixOption] at h
    injection h with h
    subst h
    by_cases hs : pyStartsWith s0 (expectedPrefix i)
    · rw [if_pos hs]; exact hs
    · rw [if_neg hs]; exact pyStartsWith_append _ _
  | null => exact Except.noConfusion h
  | bool x => exact Except.noConfusion h
  | num x => exact Except.noConfusion h
  | arr x => exact Except.noConfusion h
  | obj x => exact Except.noConfusion h

theorem fixOptionsAux_ok (opts : List Json) :
    ∀ (n : Nat) (opts' : List String), fixOptionsAux n opts = .ok opts' →
      opts'.length = opts.length
      ∧ ∀ i, (h : i < opts'.length) →
          pyStartsWith (opts'.get ⟨i, h⟩) (expectedPrefix (n + i)) = true := by
  induction opts with
  | nil =>
    intro n opts' h
    unfold fixOptionsAux at h
    injection h with h
    subst h
    exact ⟨rfl, fun i hi => absurd hi (by simp)⟩
  | cons o rest ih =>
    intro n opts' h
    unfold fixOptionsAux at h
    cases hfo : fixOption n o with
    | error e => rw [hfo] at h; exact Except.noConfusion h
    | ok s =>
      rw [hfo] at h
      cases hrest : fixOptionsAux (n + 1) rest with
      | error e => rw [hrest] at h; exact Except.noConfusion h
      | ok rest' =>
        rw [hrest] at h
        injection h with h
        subst h
        obtain ⟨hlen, hpre⟩ := ih (n + 1) rest' hrest
        refine ⟨by simp [hlen], ?_⟩
        intro i hi
        cases i with
        | zero =>
          simpa [List.get] using fixOption_ok n o s hfo
        | succ i' =>
          have hi' : i' < rest'.length := by simpa using hi
          have := hpre i' hi'
          simpa [List.get, Nat.add_assoc, Nat.add_comm 1 i'] using this

theorem fixCorrectAnswer_ok (opts : List String) (ca : Json) (s : String)
    (h : fixCorrectAnswer opts ca = .ok s) : s ∈ opts := by
  cases ca with
  | str s0 =>
    simp only [fixCorrectAnswer] at h
    by_cases hany : opts.any (· == s0)
    · rw [if_pos hany] at h
      injection h with h
      rw [← h]
      obtain ⟨x, hx, hbeq⟩ := List.any_eq_true.mp hany
      exact (eq_of_beq hbeq) ▸ hx
    · rw [if_neg hany] at h
      cases hf : opts.find? (fun o => pySubstr (pyLstrip lstripQuizChars s0) o) with
      | none => rw [hf] at h; exact Except.noConfusion h
      | some o =>
        rw [hf] at h
        injection h with h
        rw [← h]
        exact List.mem_of_find?_eq_some hf
  | null => exact Except.noConfusion h
  | bool x => exact Except.noConfusion h
  | num x => exact Except.noConfusion h
  | arr x => exact Except.noConfusion h
  | obj x => exact Except.noConfusion h

theorem repairQuestion_ok (q q' : Json) (h : repairQuestion q = .ok q') :
    QuestionShape q' := by
  cases q with
  | obj qo =>
    simp only [repairQuestion] at h
    by_cases hkeys : ((qo.lookup "question").isSome && (qo.lookup "options").isSome
        && (qo.lookup "correct_answer").isSome
        && (qo.lookup "explanation").isSome) = true
    · rw [if_pos hkeys] at h
      cases ho : qo.lookup "options" with
      | none => rw [ho] at h; exact Except.noConfusion h
      | some ov =>
        rw [ho] at h
        cases ov with
        | arr opts =>
          dsimp only at h
          by_cases hlen : (opts.length == 4) = true
          · rw [if_pos hlen] at h
            cases hfo : fixOptionsAux 0 opts with
            | error e => rw [hfo] at h; exact Except.noConfusion h
            | ok opts' =>
              rw [hfo] at h
              dsimp only at h
              cases hfc : fixCorrectAnswer opts'
                  ((qo.lookup "correct_answer").getD .null) with
              | error e => rw [hfc] at h; exact Except.noConfusion h
              | ok ca =>
                rw [hfc] at h
                dsimp only at h
                injection h with h
                rw [← h]
                obtain ⟨hlen', hpre⟩ := fixOptionsAux_ok opts 0 opts' hfo
                refine ⟨setField (setField qo "options" (.arr (opts'.map .str)))
                    "correct_answer" (.str ca), opts', ca, rfl, ?_, ?_, ?_, ?_, ?_⟩
                · rw [lookup_setField_ne _ _ _ _ (by decide), lookup_setField_self]
                · rw [hlen']; exact eq_of_beq hlen
                · intro i hi
                  simpa using hpre i hi
                · rw [lookup_setField_self]
                · exact fixCorrectAnswer_ok _ _ _ hfc
          · rw [if_neg hlen] at h; exact Except.noConfusion h
        | null => exact Except.noConfusion h
        | bool x => exact Except.noConfusion h
        | num x => exact Except.noConfusion h
        | str x => exact Except.noConfusion h
        | obj x => exact Except.noConfusion h
    · rw [if_neg hkeys] at h; exact Except.noConfusion h
  | null => exact Except.noConfusion h
  | bool x => exact Except.noConfusion h
  | num x => exact Except.noConfusion h
  | str x => exact Except.noConfusion h
  | arr x => exact Except.noConfusion h

theorem repairQuestions_ok (qs : List Json) :
    ∀ qs', repairQuestions qs = .ok qs' → ∀ q' ∈ qs', QuestionShape q' := by
  induction qs with
  | nil =>
    intro qs' h q' hq'
    unfold repairQuestions at h
    injection h with h
    rw [← h] at hq'
    cases hq'
  | cons q rest ih =>
    intro qs' h q' hq'
    unfold repairQuestions at h
    cases hr : repairQuestion q with
    | error e => rw [hr] at h; exact Except.noConfusion h
    | ok q0 =>
      rw [hr] at h
      cases hrest : repairQuestions rest with
      | error e => rw [hrest] at h; exact Except.noConfusion h
      | ok rest' =>
        rw [hrest] at h
        injection h with h
        rw [← h] at hq'
        cases hq' with
        | head => exact repairQuestion_ok q _ hr
        | tail _ hmem => exact ih rest' hrest q' hmem

theorem quizValidate_ok (j j' : Json) (h : quizValidate j = .ok j') :
    QuizShape j' := by
  cases j with
  | obj o =>
    simp only [quizValidate] at h
    cases hq : o.lookup "questions" with
    | none => rw [hq] at h; exact Except.noConfusion h
    | some qv =>
      rw [hq] at h
      cases qv with
      | arr qs =>
        dsimp only at h
        by_cases hemp : qs.isEmpty = true
        · rw [if_pos hemp] at h; exact Except.noConfusion h
        · rw [if_neg hemp] at h
          cases hr : repairQuestions qs with
          | error e => rw [hr] at h; exact Except.noConfusion h
          | ok qs' =>
            rw [hr] at h
            injection h with h
            rw [← h]
            exact ⟨setField (setField o "total_questions" (.num qs.length))
                "questions" (.arr qs'), qs', rfl, lookup_setField_self _ _ _,
              repairQuestions_ok qs qs' hr⟩
      | null => exact Except.noConfusion h
      | bool x => exact Except.noConfusion h
      | num x => exact Except.noConfusion h
      | str x => exact Except.noConfusion h
      | obj x => exact Except.noConfusion h
  | null => exact Except.noConfusion h
  | bool x => exact Except.noConfusion h
  | num x => exact Except.noConfusion h
  | str x => exact Except.noConfusion h
  | arr x => exact Except.noConfusion h

/--
C1. Every quiz returned by `generate_quiz` with success true satisfies the
repaired schema: the `questions` field is a list in which every question is
an object with exactly 4 string options, option `i` starts with the prefix
`"A) "`, `"B) "`, `"C) "` or `"D) "` matching its index, and
`correct_answer` is string-equal to one of the 4 options.
-/
theorem generate_quiz_success_schema (text : String) (b : Backend)
    (loads : Loads) (h : (generate_quiz text b loads).success = true) :
    ∃ j, (generate_quiz text b loads).data = some j ∧ QuizShape j := by
  unfold generate_quiz at h ⊢
  by_cases htxt : (pyStrip text).isEmpty
  · rw [if_pos htxt] at h; exact absurd h (by simp)
  · rw [if_neg htxt] at h ⊢
    cases b with
    | readTimeout => exact absurd h (by simp)
    | connectTimeout => exact absurd h (by simp)
    | connectError => exact absurd h (by simp)
    | exc m => exact absurd h (by simp)
    | ok status bodyFalsy responseText =>
      dsimp only at h ⊢
      by_cases hst : (status != 200) = true
      · rw [if_pos hst] at h; exact absurd h (by simp)
      · rw [if_neg hst] at h ⊢
        by_cases hrt : (pyStrip responseText).isEmpty
        · rw [if_pos hrt] at h; exact absurd h (by simp)
        · rw [if_neg hrt] at h ⊢
          cases hl : loads (sanitize (pyStrip responseText)) with
          | error m => rw [hl] at h; exact absurd h (by simp)
          | ok j =>
            rw [hl] at h
            dsimp only at h
            cases hv : quizValidate j with
            | error m => rw [hv] at h; exact absurd h (by simp)
            | ok j' =>
              refine ⟨j', ?_, quizValidate_ok j j' hv⟩
              show (match quizValidate j with
                    | Except.ok j2 =>
                      ({ success := true, data := some j2, error := none } : ORes)
                    | Except.error m =>
                      { success := false, data := none,
                        error := some ("Failed to generate quiz: " ++ m) }).data
                  = some j'
              rw [hv]

theorem generate_quiz_success_schema_witness :
    ∃ j, (generate_quiz "some source text" (.ok 200 false "raw model output")
      (fun _ => .ok (.obj [("questions", .arr [.obj
        [("question", .str "Q1"),
         ("options", .arr [.str "First", .str "Second", .str "Third", .str "Fourth"]),
         ("correct_answer", .str "First"),
         ("explanation", .str "...")]]),
        ("total_questions", .num 1)]))).data = some j ∧ QuizShape j :=
  generate_quiz_success_schema "some source text" (.ok 200 false "raw model output")
    _ (by rfl)

/--
C8. Each orchestrator method returns exactly one of the two admissible
shapes — success with data and no error, or failure with an error and no
data — and a success returned by `generate_quiz` always carries data that
came out of the quiz validation/repair step.
-/
theorem orchestrator_result_shapes :
    (∀ (text : String) (b : Backend) (loads : Loads),
      OResShape (generate_quiz text b loads))
    ∧ (∀ (b : Backend) (loads : Loads), OResShape (summarize_notes b loads))
    ∧ (∀ (text : String) (b : Backend) (loads : Loads),
      (generate_quiz text b loads).success = true →
      ∃ j j', quizValidate j = .ok j'
        ∧ (generate_quiz text b loads).data = some j') := by
  refine ⟨?_, ?_, ?_⟩
  · intro text b loads
    unfold generate_quiz OResShape
    dsimp only
    repeat' split
    all_goals simp
  · intro b loads
    unfold summarize_notes OResShape
    dsimp only
    repeat' split
    all_goals simp
  · intro text b loads h
    unfold generate_quiz at h ⊢
    by_cases htxt : (pyStrip text).isEmpty
    · rw [if_pos htxt] at h; exact absurd h (by simp)
    · rw [if_neg htxt] at h ⊢
      cases b with
      | readTimeout => exact absurd h (by simp)
      | connectTimeout => exact absurd h (by simp)
      | connectError => exact absurd h (by simp)
      | exc m => exact absurd h (by simp)
      | ok status bodyFalsy responseText =>
        dsimp only at h ⊢
        by_cases hst : (status != 200) = true
        · rw [if_pos hst] at h; exact absurd h (by simp)
        · rw [if_neg hst] at h ⊢
          by_cases hrt : (pyStrip responseText).isEmpty
          · rw [if_pos hrt] at h; exact absurd h (by simp)
          · rw [if_neg hrt] at h ⊢
            cases hl : loads (sanitize (pyStrip responseText)) with
            | error m => rw [hl] at h; exact absurd h (by simp)
            | ok j =>
              rw [hl] at h
              dsimp only at h
              cases hv : quizValidate j with
              | error m => rw [hv] at h; exact absurd h (by simp)
              | ok j' =>
                refine ⟨j, j', hv, ?_⟩
                show (match quizValidate j with
                      | Except.ok j2 =>
                        ({ success := true, data := some j2, error := none } : ORes)
                      | Except.error m =>
                        { success := false, data := none,
                          error := some ("Failed to generate quiz: " ++ m) }).data
                    = some j'
                rw [hv]

theorem orchestrator_result_shapes_witness :
    OResShape (generate_quiz "text" .readTimeout (fun _ => .error "e"))
    ∧ OResShape (summarize_notes (.ok 200 false "plain text") (fun _ => .error "e"))
    ∧ ∃ j j', quizValidate j = .ok j'
        ∧ (generate_quiz "some source text" (.ok 200 false "raw model output")
            (fun _ => .ok (.obj [("questions", .arr [.obj
              [("question", .str "Q1"),
               ("options", .arr [.str "A) a", .str "B) b", .str "C) c", .str "D) d"]),
               ("correct_answer", .str "A) a"),
               ("explanation", .str "...")]]),
              ("total_questions", .num 1)]))).data = some j' :=
  ⟨orchestrator_result_shapes.1 "text" .readTimeout (fun _ => .error "e"),
   orchestrator_result_shapes.2.1 (.ok 200 false "plain text") (fun _ => .error "e"),
   orchestrator_result_shapes.2.2 "some source text" (.ok 200 false "raw model output")
     _ (by rfl)⟩

theorem lookup_kpFillField_ne (o : List (String × Json)) (f f' : String)
    (h : f' ≠ f) : (kpFillField o f).lookup f' = o.lookup f' := by
  unfold kpFillField
  cases hv : o.lookup f with
  | none => exact lookup_setField_ne _ _ _ _ h
  | some v =>
    cases v with
    | arr l => rfl
    | null => exact lookup_setField_ne _ _ _ _ h
    | bool x => exact lookup_setField_ne _ _ _ _ h
    | num x => exact lookup_setField_ne _ _ _ _ h
    | str x => exact lookup_setField_ne _ _ _ _ h
    | obj x => exact lookup_setField_ne _ _ _ _ h

theorem lookup_kpFillField_self (o : List (String × Json)) (f : String) :
    (kpFillField o f).lookup f = some (kpFillSpec (o.lookup f)) := by
  unfold kpFillField
  cases hv : o.lookup f with
  | none => rw [lookup_setField_self]; rfl
  | some v =>
    cases v with
    | arr l => rw [hv]; rfl
    | null => rw [lookup_setField_self]; rfl
    | bool x => rw [lookup_setField_self]; rfl
    | num x => rw [lookup_setField_self]; rfl
    | str x => rw [lookup_setField_self]; rfl
    | obj x => rw [lookup_setField_self]; rfl

theorem lookup_kpDefaultField_ne (o : List (String × Json)) (f f' : String)
    (h : f' ≠ f) : (kpDefaultField o f).lookup f' = o.lookup f' := by
  unfold kpDefaultField
  cases hv : o.lookup f with
  | none => rfl
  | some v =>
    dsimp only
    by_cases hfa : v.falsy
    · rw [if_pos hfa]; exact lookup_setField_ne _ _ _ _ h
    · rw [if_neg hfa]

theorem lookup_kpDefaultField_self (o : List (String × Json)) (f : String) :
    (kpDefaultField o f).lookup f
      = match o.lookup f with
        | none => none
        | some v => some (if v.falsy then .arr [.str (kpPlaceholder f)] else v) := by
  unfold kpDefaultField
  cases hv : o.lookup f with
  | none => rw [hv]
  | some v =>
    dsimp only
    by_cases hfa : v.falsy
    · rw [if_pos hfa, lookup_setField_self, if_pos hfa]
    · rw [if_neg hfa, hv, if_neg hfa]

theorem lookup_foldl_kpFillField_not_mem (fs : List String)
    (o : List (String × Json)) (f : String) (h : f ∉ fs) :
    (fs.foldl kpFillField o).lookup f = o.lookup f := by
  induction fs generalizing o with
  | nil => rfl
  | cons g rest ih =>
    have hg : f ≠ g := fun hc => h (hc ▸ List.mem_cons_self g rest)
    have hrest : f ∉ rest := fun hc => h (List.mem_cons_of_mem g hc)
    rw [List.foldl_cons, ih _ hrest, lookup_kpFillField_ne _ _ _ hg]

theorem lookup_foldl_kpFillField_mem (fs : List String)
    (o : List (String × Json)) (f : String) (hnd : fs.Nodup) (hf : f ∈ fs) :
    (fs.foldl kpFillField o).lookup f = some (kpFillSpec (o.lookup f)) := by
  induction fs generalizing o with
  | nil => cases hf
  | cons g rest ih =>
    rw [List.foldl_cons]
    rcases List.mem_cons.mp hf with hfg | hfr
    · subst hfg
      have hrest : f ∉ rest := (List.nodup_cons.mp hnd).1
      rw [lookup_foldl_kpFillField_not_mem rest _ f hrest,
        lookup_kpFillField_self]
    · have hg : f ≠ g := by
        intro hc
        subst hc
        exact (List.nodup_cons.mp hnd).1 hfr
      rw [ih _ (List.nodup_cons.mp hnd).2 hfr, lookup_kpFillField_ne _ _ _ hg]

theorem lookup_foldl_kpDefaultField_not_mem (fs : List String)
    (o : List (String × Json)) (f : String) (h : f ∉ fs) :
    (fs.foldl kpDefaultField o).lookup f = o.lookup f := by
  induction fs generalizing o with
  | nil => rfl
  | cons g rest ih =>
    have hg : f ≠ g := fun hc => h (hc ▸ List.mem_cons_self g rest)
    have hrest : f ∉ rest := fun hc => h (List.mem_cons_of_mem g hc)
    rw [List.foldl_cons, ih _ hrest, lookup_kpDefaultField_ne _ _ _ hg]

theorem lookup_foldl_kpDefaultField_mem (fs : List String)
    (o : List (String × Json)) (f : String) (hnd : fs.Nodup) (hf : f ∈ fs) :
    (fs.foldl kpDefaultField o).lookup f
      = match o.lookup f with
        | none => none
        | some v => some (if v.falsy then .arr [.str (kpPlaceholder f)] else v) := by
  induction fs generalizing o with
  | nil => cases hf
  | cons g rest ih =>
    rw [List.foldl_cons]
    rcases List.mem_cons.mp hf with hfg | hfr
    · subst hfg
      have hrest : f ∉ rest := (List.nodup_cons.mp hnd).1
      rw [lookup_foldl_kpDefaultField_not_mem rest _ f hrest,
        lookup_kpDefaultField_self]
    · have hg : f ≠ g := by
        intro hc
        subst hc
        exact (List.nodup_cons.mp hnd).1 hfr
      rw [ih _ (List.nodup_cons.mp hnd).2 hfr, lookup_kpDefaultField_ne _ _ _ hg]

theorem repairKeyPoints_field (o : List (String × Json)) (f : String)
    (hf : f ∈ keyPointFields) :
    ((keyPointFields.foldl kpDefaultField
        (keyPointFields.foldl kpFillField o)).lookup f)
      = some (kpRepairSpec f (o.lookup f)) := by
  have hnd : keyPointFields.Nodup := by decide
  rw [lookup_foldl_kpDefaultField_mem _ _ _ hnd hf,
    lookup_foldl_kpFillField_mem _ _ _ hnd hf]
  cases hv : o.lookup f with
  | none => rfl
  | some v =>
    cases v with
    | arr l =>
      cases l with
      | nil => rfl
      | cons x xs => rfl
    | null => rfl
    | bool x => rfl
    | num x => rfl
    | str x => rfl
    | obj x => rfl

theorem kpRepairSpec_nonempty (f : String) (ov : Option Json) :
    ∃ l, kpRepairSpec f ov = .arr l ∧ l ≠ [] := by
  cases ov with
  | none => exact ⟨_, rfl, by simp⟩
  | some v =>
    cases v with
    | arr l =>
      cases l with
      | nil => exact ⟨_, rfl, by simp⟩
      | cons x xs => exact ⟨x :: xs, rfl, by simp⟩
    | null => exact ⟨_, rfl, by simp⟩
    | bool x => exact ⟨_, rfl, by simp⟩
    | num x => exact ⟨_, rfl, by simp⟩
    | str x => exact ⟨_, rfl, by simp⟩
    | obj x => exact ⟨_, rfl, by simp⟩

/--
C9. Whenever the backend response reaches parsing and its sanitized text
parses as a JSON object, `extract_key_points` returns success, and its data
carries all four of `key_points`, `important_facts`, `main_ideas`,
`vocabulary` as non-empty lists: a missing field becomes the placeholder
list (via the empty-list fill), a non-list field is wrapped into a
one-element list, an empty list becomes the placeholder list, and a
non-empty list is kept; a parsed JSON object never produces a
schema-validation failure.
-/
theorem extract_key_points_parsed_object (text rt : String) (loads : Loads)
    (o : List (String × Json))
    (h1 : (pyStrip text).isEmpty = false)
    (h2 : rt.isEmpty = false)
    (h3 : loads (extractSanitize rt) = .ok (.obj o)) :
    (extract_key_points text (.ok 200 false rt) loads).success = true
    ∧ ∃ o', (extract_key_points text (.ok 200 false rt) loads).data
        = some (.obj o')
      ∧ ∀ f ∈ keyPointFields,
          o'.lookup f = some (kpRepairSpec f (o.lookup f))
          ∧ ∃ l, kpRepairSpec f (o.lookup f) = .arr l ∧ l ≠ [] := by
  unfold extract_key_points
  rw [if_neg (by simp [h1])]
  dsimp only
  rw [if_neg (by decide), if_neg (by decide), if_neg (by simp [h2]), h3]
  dsimp only [repairKeyPoints]
  refine ⟨rfl, _, rfl, ?_⟩
  intro f hf
  exact ⟨repairKeyPoints_field o f hf, kpRepairSpec_nonempty f _⟩

theorem extract_key_points_parsed_object_witness :
    (extract_key_points "notes text" (.ok 200 false "resp")
      (fun _ => .ok (.obj [("key_points", .arr [.str "a"]),
        ("main_ideas", .str "solo")]))).success = true
    ∧ ∃ o', (extract_key_points "notes text" (.ok 200 false "resp")
        (fun _ => .ok (.obj [("key_points", .arr [.str "a"]),
          ("main_ideas", .str "solo")]))).data = some (.obj o')
      ∧ ∀ f ∈ keyPointFields,
          o'.lookup f = some (kpRepairSpec f
            (([("key_points", Json.arr [.str "a"]),
               ("main_ideas", Json.str "solo")]).lookup f))
          ∧ ∃ l, kpRepairSpec f
              (([("key_points", Json.arr [.str "a"]),
                 ("main_ideas", Json.str "solo")]).lookup f) = .arr l ∧ l ≠ [] :=
  extract_key_points_parsed_object "notes text" "resp" _ _
    (by decide) (by decide) (by rfl)
